import Mathlib

/-!
Verification development for the ClinIQ retrieval core.

This file gives a shallow embedding of the two subsystems under
specification: the multi-collection hybrid retrieval engine
(`app/retrieval/vector_store.py`) and the stateful query pipeline
(`app/retrieval/graph.py` together with the node functions under
`app/retrieval/nodes/`).  Pure Python functions become Lean functions;
the LangGraph state machine becomes an explicit step function on a
`Node × GraphState` configuration; external collaborators (the Chroma
semantic retriever, the BM25/ensemble retrievers, and every call to the
text-inference service) are modelled as oracle functions gathered in an
`Env` record, so that one run of the pipeline is a deterministic
function of the oracles.

Python strings are modelled as Lean `String`; `str.lower`, `str.strip`
and slicing `s[:n]` are re-implemented over `String.data` so that they
compute by kernel reduction (`pyLower`, `pyStrip`, `strTake`).
-/

namespace ClinIQ

/-- Embedding of Python `str.lower()` (code points are ASCII in the
department names and verdict strings this repository compares). -/
def pyLower (s : String) : String := ⟨s.data.map Char.toLower⟩

/-- Embedding of Python `str.strip()`: drop whitespace from both ends. -/
def pyStrip (s : String) : String :=
  ⟨((s.data.dropWhile Char.isWhitespace).reverse.dropWhile Char.isWhitespace).reverse⟩

/-- Embedding of the Python slice `s[:n]`. -/
def strTake (s : String) (n : Nat) : String := ⟨s.data.take n⟩

/-- `settings.departments_list` from `app/core/config.py`: the cleaned
(split on commas, stripped, lowercased) form of the configured
`HOSPITAL_DEPARTMENTS` string. -/
def departments_list : List String :=
  ["radiology", "pharmacy", "administration", "nursing", "laboratory",
   "emergency", "cardiology", "oncology", "orthopedics", "pediatrics", "general"]

/-- `settings.MAX_QUERY_RETRIES` default from `app/core/config.py`. -/
def MAX_QUERY_RETRIES : Nat := 3

/-- The metadata the vector store attaches to a stored document in
`MultiCollectionVectorStore.add_chunks`: the keys it writes explicitly
(`source`, `department`, `modality`, and conditionally `page` and
`sheet_name`) plus the free-form entries copied from the chunk. -/
structure DocMeta where
  department : String
  source : String
  modality : String
  page : Option Nat
  sheet_name : Option String
  extra : List (String × String)
deriving DecidableEq

/-- A document held by a Chroma collection (`langchain` `Document`):
page content plus metadata. -/
structure Doc where
  content : String
  metadata : DocMeta
deriving DecidableEq

/-- `ProcessedChunk` from `app/schemas/models.py` (the fields the
retrieval core reads; `row_range` is carried in `extra`). -/
structure ProcessedChunk where
  chunk_index : Nat
  content : String
  source : String
  page : Option Nat
  sheet_name : Option String
  modality : Option String
  metadata : List (String × String)
deriving DecidableEq

/-- `RetrievalResult` from `app/schemas/models.py`.  The `score` field
is a float in the source; on the hybrid-search path the code only ever
stores the constant `0.0`, modelled as `0 : Int`. -/
structure RetrievalResult where
  content : String
  source : String
  score : Int
  page : Option Nat
  metadata : DocMeta
deriving DecidableEq

/-- The mutable state of `MultiCollectionVectorStore`: the
`_collections` map (department → stored documents; `none` = no
collection object exists for that key) and the `_bm25` map
(department → documents the BM25 index was built from; `none` covers
both a missing key and an explicitly stored `None`, which Python's
`dict.get` + truthiness test cannot distinguish). -/
structure VectorStore where
  collections : String → Option (List Doc)
  bm25 : String → Option (List Doc)

/-- The BM25 index `_init_bm25` builds from a collection content
snapshot: `None` when the collection is empty, otherwise an index over
exactly the current documents. -/
def bm25_of (docs : List Doc) : Option (List Doc) :=
  if docs = [] then none else some docs

/-- `MultiCollectionVectorStore._init_bm25`: rebuild one department's
BM25 index from that department's full current collection content. -/
def init_bm25 (dept : String) (vs : VectorStore) : VectorStore :=
  { vs with
    bm25 := fun d =>
      if d = dept then
        match vs.collections dept with
        | some docs => bm25_of docs
        | none => none
      else vs.bm25 d }

/-- `MultiCollectionVectorStore._get_or_create_collection`: return the
store unchanged when the department already has a collection, otherwise
create an empty collection for it and initialise its BM25 index. -/
def get_or_create_collection (dept : String) (vs : VectorStore) : VectorStore :=
  match vs.collections dept with
  | some _ => vs
  | none =>
      init_bm25 dept
        { vs with collections := fun d => if d = dept then some [] else vs.collections d }

/-- The store built by `MultiCollectionVectorStore.__init__` on a fresh
deployment: eagerly create a collection for every configured
department, starting from empty maps. -/
def init_store : VectorStore :=
  departments_list.foldl (fun vs d => get_or_create_collection d vs)
    { collections := fun _ => none, bm25 := fun _ => none }

/-- The metadata dict `add_chunks` builds for one chunk: copy the
chunk metadata, then set `source`, `department`, `modality`
(`c.modality or "text"`), and — only when truthy — `page` and
`sheet_name`. -/
def chunk_to_doc (dept : String) (c : ProcessedChunk) : Doc :=
  { content := c.content,
    metadata :=
      { department := dept,
        source := c.source,
        modality :=
          match c.modality with
          | some m => if m = "" then "text" else m
          | none => "text",
        page :=
          match c.page with
          | some p => if p = 0 then none else some p
          | none => none,
        sheet_name :=
          match c.sheet_name with
          | some t => if t = "" then none else some t
          | none => none,
        extra := c.metadata } }

/-- `MultiCollectionVectorStore.add_chunks`.  An empty chunk list
returns at once (before the department is even lowercased or
validated).  A department outside the configured set raises
`ValueError`, modelled as `Except.error`, before any index is touched.
Otherwise the chunks are appended to the department's collection
(`collection.add_texts`) and that department's BM25 index is rebuilt
synchronously from the full new content (`_init_bm25`) before
returning. -/
def add_chunks (chunks : List ProcessedChunk) (department : String)
    (vs : VectorStore) : Except String VectorStore :=
  if chunks = [] then .ok vs
  else
    let dept := pyLower department
    if dept ∈ departments_list then
      let vs1 := get_or_create_collection dept vs
      let old := (vs1.collections dept).getD []
      let vs2 :=
        { vs1 with
          collections := fun d =>
            if d = dept then some (old ++ chunks.map (chunk_to_doc dept))
            else vs1.collections d }
      .ok (init_bm25 dept vs2)
    else .error ("Unknown department " ++ dept)

/-- One department's contribution to `hybrid_search`: departments with
no collection object are silently skipped (`continue`); when a BM25
index exists, the ensemble retriever is invoked over the collection and
the BM25 documents, otherwise the Chroma retriever alone.  `sem` and
`ens` are the external Chroma and `EnsembleRetriever` search functions,
passed as oracles. -/
def dept_docs (sem : String → List Doc → Nat → List Doc)
    (ens : String → List Doc → List Doc → Nat → List Doc)
    (vs : VectorStore) (query : String) (k : Nat) (dept0 : String) : List Doc :=
  let dept := pyLower dept0
  match vs.collections dept with
  | none => []
  | some coll =>
      match vs.bm25 dept with
      | some bdocs => ens query coll bdocs k
      | none => sem query coll k

/-- Conversion of a retrieved langchain document into a
`RetrievalResult` as done inside `hybrid_search` (`score=0.0`). -/
def doc_to_result (d : Doc) : RetrievalResult :=
  { content := d.content,
    source := d.metadata.source,
    score := 0,
    page := d.metadata.page,
    metadata := d.metadata }

/-- The `all_results` pool of `hybrid_search`: per-department results
concatenated in department order. -/
def pool (sem : String → List Doc → Nat → List Doc)
    (ens : String → List Doc → List Doc → Nat → List Doc)
    (vs : VectorStore) (query : String) (k : Nat)
    (departments : List String) : List RetrievalResult :=
  (departments.flatMap (dept_docs sem ens vs query k)).map doc_to_result

/-- The dedup loop of `hybrid_search`: key = fingerprint of the first
200 characters of content (`hash(r.content[:200])`, with the Python
hash modelled as the injective fingerprint `strTake · 200` itself);
first occurrence wins, later results with a seen key are dropped. -/
def dedup_results : List RetrievalResult → List String → List RetrievalResult
  | [], _ => []
  | r :: rs, seen =>
      let key := strTake r.content 200
      if key ∈ seen then dedup_results rs seen
      else r :: dedup_results rs (key :: seen)

/-- `MultiCollectionVectorStore.hybrid_search`: fan out over the named
departments, pool the per-department results, deduplicate by content
fingerprint, and truncate to `k` (`unique[:k]`). -/
def hybrid_search (sem : String → List Doc → Nat → List Doc)
    (ens : String → List Doc → List Doc → Nat → List Doc)
    (vs : VectorStore) (query : String) (departments : List String)
    (k : Nat) : List RetrievalResult :=
  (dedup_results (pool sem ens vs query k departments) []).take k

/-- `GraphState` from `app/retrieval/state.py`.  `generation` is
`Option String` because the `/query` route seeds the graph input
without a `generation` key; `result.get("generation", fallback)` then
distinguishes "never generated" from a generated empty string. -/
structure GraphState where
  question : String
  documents : List RetrievalResult
  generation : Option String
  role : String
  departments : List String
  user_id : String
  retry_count : Nat
  hallucination_score : String
  query_transformations : List String
  metadata : List (String × String)
  clarification_needed : Bool
  clarification_options : List String
deriving DecidableEq

/-- The string-keyed nodes of the LangGraph workflow in
`app/retrieval/graph.py`, plus the terminal `END`. -/
inductive Node where
  | clarification_check
  | retrieve
  | grade_documents
  | generate
  | transform_query
  | hallucination_check
  | done
deriving DecidableEq

/-- The external collaborators of one pipeline run, as oracles:
the Chroma and ensemble retrievers, the vector store contents, and the
five text-inference calls (ambiguity judgment, relevance grader,
answer synthesis, groundedness grader, query rewriter), plus the
configured retry cap. -/
structure Env where
  sem : String → List Doc → Nat → List Doc
  ens : String → List Doc → List Doc → Nat → List Doc
  store : VectorStore
  clarify : String → List String → String → Bool × List String
  grade : String → String → String
  gen : String → String → String → String
  halluc : String → String → String
  rewrite : String → String
  max_retries : Nat

/-- `ROLE_INSTRUCTIONS` from `app/retrieval/nodes/generation.py`. -/
def ROLE_INSTRUCTIONS : List (String × String) :=
  [("admin", "You have full administrative access. Provide complete details."),
   ("doctor", "You are responding to a licensed physician. Provide full clinical detail and procedure specifics."),
   ("nurse", "You are responding to a nurse. Focus on care protocols, dosing guidelines, and patient management procedures."),
   ("technician", "You are responding to a lab/radiology technician. Focus on technical procedures and safety protocols."),
   ("researcher", "You are responding to a researcher. Ensure all PHI is redacted. Focus on aggregate data and policy patterns."),
   ("viewer", "You are responding to a general staff member. Provide only high-level policy summaries.")]

/-- `ROLE_INSTRUCTIONS.get(role, ROLE_INSTRUCTIONS["viewer"])`. -/
def role_instruction_for (role : String) : String :=
  (ROLE_INSTRUCTIONS.lookup role).getD
    "You are responding to a general staff member. Provide only high-level policy summaries."

/-- The fixed fallback answer `generate` returns when no documents
survived grading (no inference call is made on this path). -/
def FALLBACK_NO_CONTEXT : String :=
  "I could not find any relevant information in the policy documents you have access to."

/-- The default answer the `/query` route substitutes when the graph
ends without ever setting `generation`
(`result.get("generation", ...)` in `app/api/routes.py`). -/
def NO_DOCS_ANSWER : String :=
  "No relevant documents found in the departments you have access to."

/-- The answer the `/query` route reads off the final graph state. -/
def answer_of (s : GraphState) : String := s.generation.getD NO_DOCS_ANSWER

/-- The citation locator used in `generate`'s context block
(`f"Page {doc.page}" if doc.page else f"Sheet {...}"`; note Python
truthiness makes page 0 fall through to the sheet branch). -/
def citation_loc (doc : RetrievalResult) : String :=
  match doc.page with
  | some p => if p = 0 then "Sheet " ++ (doc.metadata.sheet_name.getD "N/A") else "Page " ++ toString p
  | none => "Sheet " ++ (doc.metadata.sheet_name.getD "N/A")

/-- The `[Ref i+1]` context block `generate` builds over the surviving
documents. -/
def build_context (docs : List RetrievalResult) : String :=
  docs.enum.foldl
    (fun acc x =>
      acc ++ "[Ref " ++ toString (x.1 + 1) ++ "]: Source: " ++ x.2.source ++ " ("
        ++ x.2.metadata.department ++ " dept), " ++ citation_loc x.2
        ++ "\nContent: " ++ x.2.content ++ "\n\n")
    ""

/-- The `[Doc i+1]` facts block `hallucination_check` builds. -/
def docs_text (docs : List RetrievalResult) : String :=
  String.intercalate "\n\n"
    (docs.enum.map (fun x =>
      "[Doc " ++ toString (x.1 + 1) ++ "] (" ++ x.2.source ++ "): " ++ x.2.content))

/-- Node `clarification_check` (`app/retrieval/nodes/clarification.py`):
store the ambiguity judgment's flag and options in the state. -/
def clarification_check (env : Env) (s : GraphState) : GraphState :=
  let r := env.clarify s.question s.departments s.role
  { s with clarification_needed := r.1, clarification_options := r.2 }

/-- Node `retrieve` (`app/retrieval/nodes/retrieval.py`): hybrid search
over the state's departments with the default `k = 4`. -/
def retrieve (env : Env) (s : GraphState) : GraphState :=
  { s with documents := hybrid_search env.sem env.ens env.store s.question s.departments 4 }

/-- Node `grade_documents` (`app/retrieval/nodes/grading.py`): keep a
document iff the relevance grader's `binary_score`, lowercased, is
`"yes"`; order is preserved by the filter. -/
def grade_documents (env : Env) (s : GraphState) : GraphState :=
  { s with documents := s.documents.filter (fun d => pyLower (env.grade s.question d.content) == "yes") }

/-- Node `generate` (`app/retrieval/nodes/generation.py`): with no
documents, return the fixed fallback without touching the inference
oracle; otherwise ask it for an answer over the context block and the
role instruction. -/
def generate (env : Env) (s : GraphState) : GraphState :=
  if s.documents = [] then { s with generation := some FALLBACK_NO_CONTEXT }
  else
    { s with
      generation := some (env.gen (build_context s.documents) s.question (role_instruction_for s.role)) }

/-- Node `hallucination_check` (`app/retrieval/nodes/hallucination.py`):
an absent or empty generation is scored `"yes"` without grading;
otherwise the groundedness grader's `binary_score` is lowercased and
stored. -/
def hallucination_check (env : Env) (s : GraphState) : GraphState :=
  match s.generation with
  | none => { s with hallucination_score := "yes" }
  | some g =>
      if g = "" then { s with hallucination_score := "yes" }
      else { s with hallucination_score := pyLower (env.halluc (docs_text s.documents) g) }

/-- Node `transform_query` (`app/retrieval/nodes/transform_query.py`):
rewrite via the oracle, strip surrounding whitespace, use the result
as the new question, increment `retry_count`, and append the rewrite
to the audit trail. -/
def transform_query (env : Env) (s : GraphState) : GraphState :=
  let rewritten := pyStrip (env.rewrite s.question)
  { s with
    question := rewritten,
    retry_count := s.retry_count + 1,
    query_transformations := s.query_transformations ++ [rewritten] }

/-- Conditional edge `route_after_clarification` from
`app/retrieval/graph.py`. -/
def route_after_clarification (s : GraphState) : Node :=
  if s.clarification_needed then Node.done else Node.retrieve

/-- Conditional edge `decide_to_generate` from `app/retrieval/graph.py`. -/
def decide_to_generate (env : Env) (s : GraphState) : Node :=
  match s.documents with
  | _ :: _ => Node.generate
  | [] =>
      if s.retry_count < env.max_retries then Node.transform_query else Node.done

/-- Conditional edge `check_hallucination` from `app/retrieval/graph.py`. -/
def check_hallucination (env : Env) (s : GraphState) : Node :=
  if s.hallucination_score = "yes" then Node.done
  else if s.retry_count < env.max_retries then Node.generate
  else Node.done

/-- One LangGraph superstep: run the current node on the state, then
follow the (conditional) edge out of it, as wired in
`app/retrieval/graph.py`.  `END` is absorbing. -/
def step (env : Env) : Node × GraphState → Node × GraphState
  | (Node.clarification_check, s) =>
      let s1 := clarification_check env s
      (route_after_clarification s1, s1)
  | (Node.retrieve, s) => (Node.grade_documents, retrieve env s)
  | (Node.grade_documents, s) =>
      let s1 := grade_documents env s
      (decide_to_generate env s1, s1)
  | (Node.generate, s) => (Node.hallucination_check, generate env s)
  | (Node.transform_query, s) => (Node.retrieve, transform_query env s)
  | (Node.hallucination_check, s) =>
      let s1 := hallucination_check env s
      (check_hallucination env s1, s1)
  | (Node.done, s) => (Node.done, s)

/-- `n` supersteps of the pipeline. -/
def run (env : Env) : Nat → Node × GraphState → Node × GraphState
  | 0, c => c
  | n + 1, c => run env n (step env c)

/-- The graph input dict built by the `/query` route
(`app/api/routes.py`): `documents` and `generation` are absent,
`retry_count` is 0, `hallucination_score` is the empty string, the
audit trail is empty and the clarification fields are cleared. -/
def initial_state (q role : String) (depts : List String) (uid : String) : GraphState :=
  { question := q,
    documents := [],
    generation := none,
    role := role,
    departments := depts,
    user_id := uid,
    retry_count := 0,
    hallucination_score := "",
    query_transformations := [],
    metadata := [],
    clarification_needed := false,
    clarification_options := [] }

/-! ### Generic lemmas about the step machine and the dedup loop -/

theorem run_succ_in (env : Env) (n : Nat) (c : Node × GraphState) :
    run env (n + 1) c = run env n (step env c) := rfl

theorem run_add (env : Env) (m n : Nat) (c : Node × GraphState) :
    run env (m + n) c = run env m (run env n c) := by
  induction n generalizing c with
  | zero => rfl
  | succ n ih =>
      rw [Nat.add_succ]
      rw [run_succ_in env (m + n) c, run_succ_in env n c]
      exact ih (step env c)

theorem run_done (env : Env) (n : Nat) (s : GraphState) :
    run env n (Node.done, s) = (Node.done, s) := by
  induction n with
  | zero => rfl
  | succ n ih => rw [run_succ_in]; exact ih

theorem dedup_sublist :
    ∀ (l : List RetrievalResult) (seen : List String),
      (dedup_results l seen).Sublist l
  | [], _ => by simp [dedup_results]
  | a :: l, seen => by
      simp only [dedup_results]
      by_cases hk : strTake a.content 200 ∈ seen
      · rw [if_pos hk]; exact (dedup_sublist l seen).cons a
      · rw [if_neg hk]; exact (dedup_sublist l _).cons₂ a

theorem dedup_mem_key :
    ∀ (l : List RetrievalResult) (seen : List String) (r : RetrievalResult),
      r ∈ dedup_results l seen →
        strTake r.content 200 ∉ seen ∧
          l.find? (fun x => strTake x.content 200 == strTake r.content 200) = some r
  | [], seen, r => by simp [dedup_results]
  | a :: l, seen, r => by
      simp only [dedup_results]
      by_cases hk : strTake a.content 200 ∈ seen
      · rw [if_pos hk]
        intro hr
        obtain ⟨h1, h2⟩ := dedup_mem_key l seen r hr
        have hne : (strTake a.content 200 == strTake r.content 200) = false := by
          refine beq_eq_false_iff_ne.mpr (fun h => h1 ?_)
          exact h ▸ hk
        refine ⟨h1, ?_⟩
        simp [List.find?, hne, h2]
      · rw [if_neg hk]
        intro hr
        rcases List.mem_cons.mp hr with rfl | hr
        · exact ⟨hk, by simp [List.find?]⟩
        · obtain ⟨h1, h2⟩ := dedup_mem_key l (strTake a.content 200 :: seen) r hr
          have hra : strTake r.content 200 ≠ strTake a.content 200 := by
            intro h
            exact h1 (h ▸ List.mem_cons_self _ _)
          have hne : (strTake a.content 200 == strTake r.content 200) = false :=
            beq_eq_false_iff_ne.mpr (fun h => hra h.symm)
          refine ⟨fun h => h1 (List.mem_cons_of_mem _ h), ?_⟩
          simp [List.find?, hne, h2]

theorem dedup_pairwise :
    ∀ (l : List RetrievalResult) (seen : List String),
      (dedup_results l seen).Pairwise
        (fun a b => strTake a.content 200 ≠ strTake b.content 200)
  | [], seen => by simp [dedup_results]
  | a :: l, seen => by
      simp only [dedup_results]
      by_cases hk : strTake a.content 200 ∈ seen
      · rw [if_pos hk]; exact dedup_pairwise l seen
      · rw [if_neg hk]
        refine List.pairwise_cons.mpr ⟨?_, dedup_pairwise l _⟩
        intro b hb h
        exact (dedup_mem_key l (strTake a.content 200 :: seen) b hb).1
          (h ▸ List.mem_cons_self _ _)

/-! ### Concrete material shared by witnesses and counterexamples -/

/-- One stored chunk of the spec's concrete scenario (§8). -/
def doc_mri : Doc :=
  { content := "Prior auth required for non-emergent MRI.",
    metadata :=
      { department := "radiology", source := "radiology_policy.pdf",
        modality := "text", page := some 2, sheet_name := none, extra := [] } }

/-- The same content ingested into the pharmacy collection (identical
content, different group). -/
def doc_mri_pharmacy : Doc :=
  { content := "Prior auth required for non-emergent MRI.",
    metadata :=
      { department := "pharmacy", source := "pharmacy_policy.pdf",
        modality := "text", page := some 7, sheet_name := none, extra := [] } }

/-- A store whose radiology collection holds one chunk (with its BM25
index built over it) and whose other configured collections are empty. -/
def store_one : VectorStore :=
  { collections := fun d =>
      if d = "radiology" then some [doc_mri]
      else if d ∈ departments_list then some [] else none,
    bm25 := fun d => if d = "radiology" then some [doc_mri] else none }

/-- A store where identical content lives in both the radiology and the
pharmacy collections. -/
def store_dup : VectorStore :=
  { collections := fun d =>
      if d = "radiology" then some [doc_mri]
      else if d = "pharmacy" then some [doc_mri_pharmacy]
      else if d ∈ departments_list then some [] else none,
    bm25 := fun d =>
      if d = "radiology" then some [doc_mri]
      else if d = "pharmacy" then some [doc_mri_pharmacy] else none }

/-- A concrete environment: identity retrievers, the one-chunk store, a
specific (unambiguous) query, a relevance grader that accepts, a
groundedness grader that rejects every answer, and the default retry
cap of 3. -/
def envC3 : Env :=
  { sem := fun _ docs _ => docs,
    ens := fun _ cdocs _ _ => cdocs,
    store := store_one,
    clarify := fun _ _ _ => (false, []),
    grade := fun _ _ => "yes",
    gen := fun _ _ _ => "Prior authorization is required [Ref 1].",
    halluc := fun _ _ => "no",
    rewrite := fun q => q,
    max_retries := 3 }

/-- The initial configuration the `/query` route hands to the graph for
the concrete scenario. -/
def cfgC3 : Node × GraphState :=
  (Node.clarification_check,
   initial_state "do I need prior auth for an MRI" "doctor" ["radiology"] "drsmith")

/-! ### C10 -/

/-- C10: `add_chunks` called with an empty chunk list returns
successfully for every group identifier, configured or not: the guard
`if not chunks: return` fires before the department is lowercased or
validated, so no error is raised and the store is returned untouched. -/
theorem add_chunks_empty_noop (g : String) (vs : VectorStore) :
    add_chunks [] g vs = .ok vs := rfl

/-! ### C5 -/

/-- C5: the hybrid search result is an order-preserving selection from
the pooled per-group results (so the first occurrence of each content
fingerprint wins), no two returned results share the fingerprint of the
first 200 characters of content (so identical content ingested into two
groups is returned at most once), each returned result is the first
element of the pool carrying its fingerprint, and the list is truncated
to at most `k` elements. -/
theorem hybrid_search_dedup_and_bound
    (sem : String → List Doc → Nat → List Doc)
    (ens : String → List Doc → List Doc → Nat → List Doc)
    (vs : VectorStore) (q : String) (D : List String) (k : Nat) :
    (hybrid_search sem ens vs q D k).length ≤ k
    ∧ (hybrid_search sem ens vs q D k).Sublist (pool sem ens vs q k D)
    ∧ (hybrid_search sem ens vs q D k).Pairwise
        (fun a b => strTake a.content 200 ≠ strTake b.content 200)
    ∧ ∀ r ∈ hybrid_search sem ens vs q D k,
        (pool sem ens vs q k D).find?
          (fun x => strTake x.content 200 == strTake r.content 200) = some r := by
  have hsub : (hybrid_search sem ens vs q D k).Sublist
      (dedup_results (pool sem ens vs q k D) []) := List.take_sublist k _
  refine ⟨?_, ?_, ?_, ?_⟩
  · calc (hybrid_search sem ens vs q D k).length
        = min k (dedup_results (pool sem ens vs q k D) []).length := List.length_take k _
      _ ≤ k := Nat.min_le_left _ _
  · exact hsub.trans (dedup_sublist _ [])
  · exact (dedup_pairwise (pool sem ens vs q k D) []).sublist hsub
  · intro r hr
    exact (dedup_mem_key (pool sem ens vs q k D) [] r (hsub.mem hr)).2

/-- Witness for C5 at the dedup-idempotence scenario of the spec:
identical content in the radiology and the pharmacy collections,
queried over both groups, comes back exactly once (the radiology copy,
which pools first), and the result respects the bound `k = 4`. -/
theorem hybrid_search_dedup_and_bound_witness :
    (hybrid_search envC3.sem envC3.ens store_dup "prior auth MRI"
        ["radiology", "pharmacy"] 4).length ≤ 4
    ∧ (pool envC3.sem envC3.ens store_dup "prior auth MRI" 4
          ["radiology", "pharmacy"]).find?
        (fun x => strTake x.content 200 == strTake (doc_to_result doc_mri).content 200)
        = some (doc_to_result doc_mri) := by
  have h := hybrid_search_dedup_and_bound envC3.sem envC3.ens store_dup
    "prior auth MRI" ["radiology", "pharmacy"] 4
  exact ⟨h.1, h.2.2.2 (doc_to_result doc_mri) (by decide)⟩

/-! ### C8 -/

/-- C8 counterexample: `"chapel"` is not a configured department, yet
`hybrid_search` performs no validity check at all — the unknown group
is silently skipped (`continue`), the call returns the plain empty
result list instead of reporting an `InvalidGroup` error, and a query
mixing a known and an unknown group behaves exactly as if the unknown
group had not been named. -/
theorem hybrid_search_unknown_group_cex :
    departments_list.contains "chapel" = false
    ∧ hybrid_search envC3.sem envC3.ens store_one "recall policy" ["chapel"] 4 = []
    ∧ hybrid_search envC3.sem envC3.ens store_one "recall policy" ["radiology", "chapel"] 4
        = hybrid_search envC3.sem envC3.ens store_one "recall policy" ["radiology"] 4 := by
  refine ⟨by decide, by decide, by decide⟩

/-- A department whose (lowercased) key has no collection contributes
nothing to the hybrid-search pool. -/
theorem dept_docs_of_missing (sem : String → List Doc → Nat → List Doc)
    (ens : String → List Doc → List Doc → Nat → List Doc)
    (vs : VectorStore) (q : String) (k : Nat) (g : String)
    (h : vs.collections (pyLower g) = none) :
    dept_docs sem ens vs q k g = [] := by
  simp [dept_docs, h]

/-- C8 (amended): a query naming a group outside the configured set (or
any group whose collection does not exist) does not fail — the group is
silently skipped, and hybrid search returns exactly what it returns for
the same query restricted to the groups that do have collections. -/
theorem hybrid_search_skips_unknown_groups
    (sem : String → List Doc → Nat → List Doc)
    (ens : String → List Doc → List Doc → Nat → List Doc)
    (vs : VectorStore) (q : String) (D : List String) (k : Nat) :
    hybrid_search sem ens vs q D k
      = hybrid_search sem ens vs q
          (D.filter (fun g => (vs.collections (pyLower g)).isSome)) k := by
  unfold hybrid_search pool
  have hfm : ∀ E : List String,
      E.flatMap (dept_docs sem ens vs q k)
        = (E.filter (fun g => (vs.collections (pyLower g)).isSome)).flatMap
            (dept_docs sem ens vs q k) := by
    intro E
    induction E with
    | nil => rfl
    | cons g E ih =>
        rw [List.flatMap_cons, List.filter_cons]
        by_cases h : (vs.collections (pyLower g)).isSome
        · rw [if_pos h, List.flatMap_cons, ih]
        · have hc : vs.collections (pyLower g) = none := by
            cases hc : vs.collections (pyLower g) with
            | none => rfl
            | some docs => rw [hc] at h; simp at h
          rw [if_neg h, dept_docs_of_missing sem ens vs q k g hc, List.nil_append, ih]
  rw [hfm D]

/-! ### C1 -/

/-- The per-group containment invariant of the store: every document
held in the collection keyed by `dept` (and every document any BM25
index for `dept` was built from) carries `dept` as its `department`
metadata attribute.  `add_chunks` establishes it by stamping
`meta["department"] = department` on every stored chunk. -/
def StoreInv (vs : VectorStore) : Prop :=
  (∀ dept docs, vs.collections dept = some docs →
      ∀ d ∈ docs, d.metadata.department = dept)
  ∧ (∀ dept docs, vs.bm25 dept = some docs →
      ∀ d ∈ docs, d.metadata.department = dept)

theorem init_bm25_store_inv (dept : String) (vs : VectorStore)
    (h : StoreInv vs) : StoreInv (init_bm25 dept vs) := by
  refine ⟨h.1, ?_⟩
  intro d docs hd
  simp only [init_bm25] at hd
  by_cases hdd : d = dept
  · rw [if_pos hdd] at hd
    cases hc : vs.collections dept with
    | none => rw [hc] at hd; exact absurd hd (by simp)
    | some cdocs =>
        rw [hc] at hd
        simp only [bm25_of] at hd
        by_cases hn : cdocs = []
        · rw [if_pos hn] at hd; exact absurd hd (by simp)
        · rw [if_neg hn] at hd
          cases Option.some.inj hd
          rw [hdd]
          exact h.1 dept _ hc
  · rw [if_neg hdd] at hd
    exact h.2 d docs hd

theorem get_or_create_store_inv (dept : String) (vs : VectorStore)
    (h : StoreInv vs) : StoreInv (get_or_create_collection dept vs) := by
  unfold get_or_create_collection
  cases hc : vs.collections dept with
  | some docs => exact h
  | none =>
      apply init_bm25_store_inv
      refine ⟨?_, h.2⟩
      intro d docs hd
      by_cases hdd : d = dept
      · simp only [if_pos hdd] at hd
        obtain rfl : ([] : List Doc) = docs := Option.some.inj hd
        intro x hx
        exact absurd hx (by simp)
      · simp only [if_neg hdd] at hd
        exact h.1 d docs hd

theorem store_inv_empty :
    StoreInv { collections := fun _ => none, bm25 := fun _ => none } := by
  constructor <;> intro dept docs hd <;> exact absurd hd (by simp)

theorem foldl_goc_store_inv :
    ∀ (l : List String) (vs : VectorStore), StoreInv vs →
      StoreInv (l.foldl (fun vs d => get_or_create_collection d vs) vs)
  | [], _, h => h
  | d :: l, vs, h => foldl_goc_store_inv l _ (get_or_create_store_inv d vs h)

/-- The eagerly initialised store of a fresh deployment satisfies the
containment invariant. -/
theorem store_inv_init : StoreInv init_store :=
  foldl_goc_store_inv departments_list _ store_inv_empty

/-- `add_chunks` preserves the containment invariant: every appended
document is stamped with the (lowercased) target department, and the
BM25 rebuild draws only from that department's own collection. -/
theorem add_chunks_store_inv (chunks : List ProcessedChunk) (department : String)
    (vs vs2 : VectorStore) (h : StoreInv vs)
    (hok : add_chunks chunks department vs = .ok vs2) : StoreInv vs2 := by
  unfold add_chunks at hok
  by_cases he : chunks = []
  · rw [if_pos he] at hok
    cases Except.ok.inj hok
    exact h
  · rw [if_neg he] at hok
    simp only [] at hok
    by_cases hdep : pyLower department ∈ departments_list
    · rw [if_pos hdep] at hok
      cases Except.ok.inj hok
      apply init_bm25_store_inv
      have h1 : StoreInv (get_or_create_collection (pyLower department) vs) :=
        get_or_create_store_inv _ _ h
      refine ⟨?_, h1.2⟩
      intro d docs hd x hx
      by_cases hdd : d = pyLower department
      · simp only [if_pos hdd] at hd
        cases Option.some.inj hd
        rcases List.mem_append.mp hx with hx | hx
        · rw [hdd]
          cases hc : (get_or_create_collection (pyLower department) vs).collections
              (pyLower department) with
          | none => rw [hc] at hx; exact absurd hx (by simp)
          | some o =>
              rw [hc] at hx
              exact h1.1 _ _ hc x hx
        · obtain ⟨c, _, rfl⟩ := List.mem_map.mp hx
          rw [hdd]
          rfl
      · simp only [if_neg hdd] at hd
        exact h1.1 d docs hd x hx
    · rw [if_neg hdep] at hok
      exact absurd hok (by simp)

/-- The two-copy store satisfies the containment invariant. -/
theorem store_dup_inv : StoreInv store_dup := by
  constructor
  · intro dept docs hd x hx
    simp only [store_dup] at hd
    split_ifs at hd with h1 h2 h3
    · cases Option.some.inj hd
      simp only [List.mem_singleton] at hx
      subst hx
      rw [h1]
      rfl
    · cases Option.some.inj hd
      simp only [List.mem_singleton] at hx
      subst hx
      rw [h2]
      rfl
    · cases Option.some.inj hd
      exact absurd hx (by simp)
  · intro dept docs hd x hx
    simp only [store_dup] at hd
    split_ifs at hd with h1 h2
    · cases Option.some.inj hd
      simp only [List.mem_singleton] at hx
      subst hx
      rw [h1]
      rfl
    · cases Option.some.inj hd
      simp only [List.mem_singleton] at hx
      subst hx
      rw [h2]
      rfl

/-- C1: isolation of the hybrid retrieval engine.  Assuming only that
the external retrievers return documents drawn from the index they are
given (the Chroma retriever from the department's collection, the
ensemble retriever from that collection and its BM25 documents), every
result of `hybrid_search` over a group list `D` (of normalised,
lowercase group names, as configured) carries a `department` attribute
that is a member of `D` — regardless of what identical content other
collections hold.  The store hypothesis is the invariant established by
`store_inv_init` and preserved by `add_chunks_store_inv`. -/
theorem hybrid_search_isolation
    (sem : String → List Doc → Nat → List Doc)
    (ens : String → List Doc → List Doc → Nat → List Doc)
    (vs : VectorStore) (q : String) (D : List String) (k : Nat)
    (hsem : ∀ qq docs j, ∀ d ∈ sem qq docs j, d ∈ docs)
    (hens : ∀ qq cdocs bdocs j, ∀ d ∈ ens qq cdocs bdocs j, d ∈ cdocs ∨ d ∈ bdocs)
    (hinv : StoreInv vs)
    (hD : ∀ g ∈ D, pyLower g = g)
    (r : RetrievalResult) (hr : r ∈ hybrid_search sem ens vs q D k) :
    r.metadata.department ∈ D := by
  have hpool : r ∈ pool sem ens vs q k D :=
    ((List.take_sublist k _).trans (dedup_sublist _ [])).mem hr
  obtain ⟨d, hd, rfl⟩ := List.mem_map.mp hpool
  obtain ⟨g, hgD, hdg⟩ := List.mem_flatMap.mp hd
  simp only [dept_docs] at hdg
  have hdep : d.metadata.department = pyLower g := by
    cases hc : vs.collections (pyLower g) with
    | none => rw [hc] at hdg; exact absurd hdg (by simp)
    | some coll =>
        rw [hc] at hdg
        cases hb : vs.bm25 (pyLower g) with
        | none =>
            rw [hb] at hdg
            exact hinv.1 _ _ hc d (hsem _ _ _ d hdg)
        | some bdocs =>
            rw [hb] at hdg
            rcases hens _ _ _ _ d hdg with hcoll | hbm
            · exact hinv.1 _ _ hc d hcoll
            · exact hinv.2 _ _ hb d hbm
  have : (doc_to_result d).metadata.department = pyLower g := hdep
  rw [this, hD g hgD]
  exact hgD

/-- Witness for C1 on the spec's counter-scenario: the same content
lives in both the radiology and the pharmacy collections; a query
restricted to `["pharmacy"]` returns a result whose group attribute is
in `["pharmacy"]`. -/
theorem hybrid_search_isolation_witness :
    (doc_to_result doc_mri_pharmacy).metadata.department ∈ ["pharmacy"] :=
  hybrid_search_isolation
    (fun _ docs _ => docs) (fun _ cdocs _ _ => cdocs) store_dup
    "recall policy" ["pharmacy"] 4
    (fun _ _ _ _ hx => hx) (fun _ _ _ _ _ hx => Or.inl hx)
    store_dup_inv (by decide)
    (doc_to_result doc_mri_pharmacy) (by decide)

/-! ### C6 -/

/-- C6: the `add_chunks` mutation contract for a non-empty chunk list.
A department outside the configured set fails with the invalid-group
`ValueError` — raised before any index is touched, so in this
functional model no successor store exists and the caller keeps the
unchanged one.  A configured department succeeds: the chunks (stamped
with the lowercased department) are appended to that department's
collection, the department's BM25 index is rebuilt synchronously so
that it equals exactly the full post-append collection snapshot, and
no other department's collection or BM25 index is touched. -/
theorem add_chunks_contract (chunks : List ProcessedChunk) (department : String)
    (vs : VectorStore) (hne : chunks ≠ []) :
    (pyLower department ∉ departments_list →
        add_chunks chunks department vs
          = .error ("Unknown department " ++ pyLower department))
    ∧ (pyLower department ∈ departments_list →
        ∃ vs2, add_chunks chunks department vs = .ok vs2
          ∧ vs2.collections (pyLower department)
              = some ((((get_or_create_collection (pyLower department) vs).collections
                          (pyLower department)).getD [])
                      ++ chunks.map (chunk_to_doc (pyLower department)))
          ∧ vs2.bm25 (pyLower department) = vs2.collections (pyLower department)
          ∧ ∀ d, d ≠ pyLower department →
              vs2.collections d
                  = (get_or_create_collection (pyLower department) vs).collections d
              ∧ vs2.bm25 d
                  = (get_or_create_collection (pyLower department) vs).bm25 d) := by
  constructor
  · intro hno
    unfold add_chunks
    rw [if_neg hne, if_neg hno]
  · intro hyes
    have hres : add_chunks chunks department vs
        = .ok (init_bm25 (pyLower department)
            { get_or_create_collection (pyLower department) vs with
              collections := fun d =>
                if d = pyLower department then
                  some ((((get_or_create_collection (pyLower department) vs).collections
                            (pyLower department)).getD [])
                        ++ chunks.map (chunk_to_doc (pyLower department)))
                else (get_or_create_collection (pyLower department) vs).collections d }) := by
      unfold add_chunks
      rw [if_neg hne]
      simp only [if_pos hyes]
    have hmap : chunks.map (chunk_to_doc (pyLower department)) ≠ [] := by
      intro h
      cases chunks with
      | nil => exact hne rfl
      | cons a l => exact absurd h (by simp)
    refine ⟨_, hres, ?_, ?_, ?_⟩
    · simp [init_bm25]
    · have happ : (((get_or_create_collection (pyLower department) vs).collections
            (pyLower department)).getD [])
          ++ chunks.map (chunk_to_doc (pyLower department)) ≠ [] := by
        intro h
        rcases List.append_eq_nil.mp h with ⟨_, h2⟩
        exact hmap h2
      simp [init_bm25, bm25_of, happ]
    · intro d hd
      exact ⟨by simp [init_bm25, hd], by simp [init_bm25, hd]⟩

/-- The chunk of the spec's concrete scenario, as produced by the
external ingestion pipeline. -/
def chunk_w : ProcessedChunk :=
  { chunk_index := 0,
    content := "Prior auth required for non-emergent MRI.",
    source := "radiology_policy.pdf",
    page := some 2,
    sheet_name := none,
    modality := some "text",
    metadata := [] }

/-- Witness for C6: on the fresh store, ingesting one chunk into the
unconfigured group `"chapel"` fails with the invalid-group error, while
ingesting it into `"Radiology"` (validated after lowercasing) succeeds
with the appended collection, the synchronously rebuilt BM25 snapshot,
and all other groups untouched. -/
theorem add_chunks_contract_witness :
    add_chunks [chunk_w] "chapel" init_store
      = .error ("Unknown department " ++ pyLower "chapel")
    ∧ ∃ vs2, add_chunks [chunk_w] "Radiology" init_store = .ok vs2
        ∧ vs2.collections (pyLower "Radiology")
            = some ((((get_or_create_collection (pyLower "Radiology") init_store).collections
                        (pyLower "Radiology")).getD [])
                    ++ [chunk_w].map (chunk_to_doc (pyLower "Radiology")))
        ∧ vs2.bm25 (pyLower "Radiology") = vs2.collections (pyLower "Radiology")
        ∧ ∀ d, d ≠ pyLower "Radiology" →
            vs2.collections d
                = (get_or_create_collection (pyLower "Radiology") init_store).collections d
            ∧ vs2.bm25 d
                = (get_or_create_collection (pyLower "Radiology") init_store).bm25 d :=
  ⟨(add_chunks_contract [chunk_w] "chapel" init_store (by decide)).1 (by decide),
   (add_chunks_contract [chunk_w] "Radiology" init_store (by decide)).2 (by decide)⟩

/-! ### C7 -/

/-- C7: when zero retrieval results survive grading, `generate`
produces the constant fallback answer, and its output is identical for
any two inference environments — the text-inference oracle is never
consulted on the empty-documents path. -/
theorem generate_empty_fallback (env env2 : Env) (s : GraphState)
    (h : s.documents = []) :
    generate env s = { s with generation := some FALLBACK_NO_CONTEXT }
    ∧ generate env s = generate env2 s := by
  constructor
  · unfold generate
    rw [if_pos h]
  · unfold generate
    rw [if_pos h, if_pos h]

/-- Witness for C7: the freshly initialised pipeline state (empty
document list) yields the fixed fallback, unchanged when the answer
synthesis oracle is swapped for a different one. -/
theorem generate_empty_fallback_witness :
    generate envC3 (initial_state "q" "viewer" ["general"] "u")
      = { initial_state "q" "viewer" ["general"] "u" with
          generation := some FALLBACK_NO_CONTEXT }
    ∧ generate envC3 (initial_state "q" "viewer" ["general"] "u")
      = generate { envC3 with gen := fun _ _ _ => "a completely different answer" }
          (initial_state "q" "viewer" ["general"] "u") :=
  generate_empty_fallback envC3
    { envC3 with gen := fun _ _ _ => "a completely different answer" }
    (initial_state "q" "viewer" ["general"] "u") rfl

/-! ### C2 -/

/-- The configuration invariant of the retry budget: the counter never
exceeds the cap, and the `transform_query` node is only ever entered
with strict budget remaining (its guard in `decide_to_generate`). -/
def ConfigOK (env : Env) (c : Node × GraphState) : Prop :=
  c.2.retry_count ≤ env.max_retries
  ∧ (c.1 = Node.transform_query → c.2.retry_count < env.max_retries)

theorem step_retry_le (env : Env) (c : Node × GraphState) :
    c.2.retry_count ≤ (step env c).2.retry_count := by
  rcases c with ⟨node, s⟩
  cases node with
  | clarification_check => exact Nat.le_refl _
  | retrieve => exact Nat.le_refl _
  | grade_documents => exact Nat.le_refl _
  | generate =>
      show s.retry_count ≤ (generate env s).retry_count
      unfold generate
      split <;> exact Nat.le_refl _
  | transform_query =>
      show s.retry_count ≤ (transform_query env s).retry_count
      exact Nat.le_succ _
  | hallucination_check =>
      show s.retry_count ≤ (hallucination_check env s).retry_count
      unfold hallucination_check
      split
      · exact Nat.le_refl _
      · split <;> exact Nat.le_refl _
  | done => exact Nat.le_refl _

theorem step_config_ok (env : Env) (c : Node × GraphState)
    (h : ConfigOK env c) : ConfigOK env (step env c) := by
  rcases c with ⟨node, s⟩
  obtain ⟨h1, h2⟩ := h
  cases node with
  | clarification_check =>
      refine ⟨h1, ?_⟩
      intro hn
      unfold step route_after_clarification at hn
      simp only [] at hn
      split at hn <;> cases hn
  | retrieve => exact ⟨h1, by intro hn; cases hn⟩
  | grade_documents =>
      refine ⟨h1, ?_⟩
      intro hn
      unfold step decide_to_generate at hn
      simp only [] at hn
      split at hn
      · cases hn
      · split at hn
        · exact ‹(grade_documents env s).retry_count < env.max_retries›
        · cases hn
  | generate =>
      constructor
      · show (generate env s).retry_count ≤ env.max_retries
        unfold generate
        split <;> exact h1
      · intro hn
        cases hn
  | transform_query =>
      constructor
      · show (transform_query env s).retry_count ≤ env.max_retries
        have hlt : s.retry_count < env.max_retries := h2 rfl
        show s.retry_count + 1 ≤ env.max_retries
        omega
      · intro hn
        cases hn
  | hallucination_check =>
      have hpres : (hallucination_check env s).retry_count = s.retry_count := by
        unfold hallucination_check
        split
        · rfl
        · split <;> rfl
      constructor
      · show (hallucination_check env s).retry_count ≤ env.max_retries
        rw [hpres]
        exact h1
      · intro hn
        unfold step check_hallucination at hn
        simp only [] at hn
        split at hn
        · cases hn
        · split at hn <;> cases hn
  | done => exact ⟨h1, by intro hn; cases hn⟩

theorem run_config_ok (env : Env) (n : Nat) (c : Node × GraphState)
    (h : ConfigOK env c) : ConfigOK env (run env n c) := by
  induction n generalizing c with
  | zero => exact h
  | succ n ih =>
      rw [run_succ_in]
      exact ih _ (step_config_ok env c h)

theorem run_retry_le (env : Env) (n : Nat) (c : Node × GraphState) :
    c.2.retry_count ≤ (run env n c).2.retry_count := by
  induction n generalizing c with
  | zero => exact Nat.le_refl _
  | succ n ih =>
      rw [run_succ_in]
      exact Nat.le_trans (step_retry_le env c) (ih (step env c))

/-- C2: across one pipeline run, `retry_count` never exceeds the
configured `MAX_QUERY_RETRIES` cap, is non-decreasing over time, and a
state that reaches document grading with zero surviving documents and
an exhausted budget transitions to the terminal node — leaving
`generation` untouched, so the `/query` route returns the fallback
apology — instead of entering `transform_query` again.  The `ConfigOK`
hypothesis holds of the initial configuration built by the route
(`retry_count = 0`) and is preserved by every step
(`step_config_ok`). -/
theorem retry_monotone_bounded (env : Env) (c : Node × GraphState)
    (hc : ConfigOK env c) (m n : Nat) (hmn : m ≤ n) :
    (run env n c).2.retry_count ≤ env.max_retries
    ∧ (run env m c).2.retry_count ≤ (run env n c).2.retry_count
    ∧ ∀ s : GraphState, s.retry_count = env.max_retries →
        (grade_documents env s).documents = [] →
        step env (Node.grade_documents, s) = (Node.done, grade_documents env s)
        ∧ answer_of (grade_documents env s) = answer_of s := by
  refine ⟨(run_config_ok env n c hc).1, ?_, ?_⟩
  · obtain ⟨k, rfl⟩ := Nat.le.dest hmn
    rw [Nat.add_comm m k, run_add]
    exact run_retry_le env k (run env m c)
  · intro s hs hd
    constructor
    · show (decide_to_generate env (grade_documents env s), grade_documents env s)
          = (Node.done, grade_documents env s)
      unfold decide_to_generate
      rw [hd]
      have : ¬ (grade_documents env s).retry_count < env.max_retries := by
        show ¬ s.retry_count < env.max_retries
        omega
      rw [if_neg this]
    · rfl

/-- Witness for C2 on the concrete scenario environment: the bound and
monotonicity after 2 and 5 steps, and the terminal transition out of
grading for a state with an empty document list and
`retry_count = max_retries = 3`. -/
theorem retry_monotone_bounded_witness :
    (run envC3 5 cfgC3).2.retry_count ≤ envC3.max_retries
    ∧ (run envC3 2 cfgC3).2.retry_count ≤ (run envC3 5 cfgC3).2.retry_count
    ∧ step envC3
        (Node.grade_documents,
         { initial_state "no such topic" "viewer" ["pharmacy"] "u2" with retry_count := 3 })
        = (Node.done,
           grade_documents envC3
             { initial_state "no such topic" "viewer" ["pharmacy"] "u2" with retry_count := 3 })
    ∧ answer_of (grade_documents envC3
          { initial_state "no such topic" "viewer" ["pharmacy"] "u2" with retry_count := 3 })
        = answer_of ({ initial_state "no such topic" "viewer" ["pharmacy"] "u2" with retry_count := 3 }) := by
  have h := retry_monotone_bounded envC3 cfgC3 (by exact ⟨by decide, by intro hx; cases hx⟩) 2 5 (by omega)
  have h3 := h.2.2
    { initial_state "no such topic" "viewer" ["pharmacy"] "u2" with retry_count := 3 }
    rfl (by decide)
  exact ⟨h.1, h.2.1, h3.1, h3.2⟩

/-! ### C9 -/

theorem step_audit (env : Env) (c : Node × GraphState) :
    (step env c).2.query_transformations
      = c.2.query_transformations
        ++ (if c.1 = Node.transform_query then [(step env c).2.question] else []) := by
  rcases c with ⟨node, s⟩
  cases node with
  | clarification_check => simp [step, clarification_check]
  | retrieve => simp [step, retrieve]
  | grade_documents => simp [step, grade_documents]
  | generate =>
      show (generate env s).query_transformations = s.query_transformations ++ _
      rw [if_neg (by intro h; cases h), List.append_nil]
      unfold generate
      split <;> rfl
  | transform_query =>
      rw [if_pos rfl]
      rfl
  | hallucination_check =>
      show (hallucination_check env s).query_transformations = s.query_transformations ++ _
      rw [if_neg (by intro h; cases h), List.append_nil]
      unfold hallucination_check
      split
      · rfl
      · split <;> rfl
  | done => simp [step]

theorem step_transform_question (env : Env) (c : Node × GraphState)
    (h : c.1 = Node.transform_query) :
    (step env c).2.question = pyStrip (env.rewrite c.2.question) := by
  rcases c with ⟨node, s⟩
  simp only [] at h
  subst h
  rfl

theorem run_step_comm (env : Env) (n : Nat) (c : Node × GraphState) :
    run env n (step env c) = step env (run env n c) := by
  induction n generalizing c with
  | zero => rfl
  | succ n ih =>
      rw [run_succ_in, run_succ_in]
      exact ih (step env c)

theorem run_succ_out (env : Env) (n : Nat) (c : Node × GraphState) :
    run env (n + 1) c = step env (run env n c) := by
  rw [run_succ_in]
  exact run_step_comm env n c

/-- The number of `transform_query` transitions taken during the first
`n` supersteps from configuration `c`. -/
def transform_steps (env : Env) (c : Node × GraphState) : Nat → Nat
  | 0 => 0
  | n + 1 =>
      transform_steps env c n
        + (if (run env n c).1 = Node.transform_query then 1 else 0)

/-- C9: the ordered rewrite audit trail grows by exactly one entry per
`transform_query` transition (so its length equals the number of such
transitions taken), existing entries are never overwritten or removed
(the old trail is a prefix of the new one at every point), and each
appended entry is, character for character, the whitespace-stripped
rewriter output that becomes the question for the next retrieval. -/
theorem query_rewrite_audit_trail (env : Env) (c : Node × GraphState) (n : Nat) :
    ((run env n c).2.query_transformations).length
        = c.2.query_transformations.length + transform_steps env c n
    ∧ c.2.query_transformations <+: (run env n c).2.query_transformations
    ∧ ∀ m : Nat, (run env m c).1 = Node.transform_query →
        (run env (m + 1) c).2.query_transformations
          = (run env m c).2.query_transformations ++ [(run env (m + 1) c).2.question]
        ∧ (run env (m + 1) c).2.question
            = pyStrip (env.rewrite (run env m c).2.question) := by
  refine ⟨?_, ?_, ?_⟩
  · induction n with
    | zero => simp [transform_steps, run]
    | succ n ih =>
        rw [run_succ_out, step_audit env (run env n c), List.length_append, ih]
        simp only [transform_steps]
        by_cases h : (run env n c).1 = Node.transform_query
        · rw [if_pos h, if_pos h]
          simp only [List.length_singleton]
          omega
        · rw [if_neg h, if_neg h]
          simp
  · induction n with
    | zero => exact List.prefix_refl _
    | succ n ih =>
        rw [run_succ_out, step_audit env (run env n c)]
        exact ih.trans (List.prefix_append _ _)
  · intro m hm
    constructor
    · rw [run_succ_out, step_audit env (run env m c), if_pos hm]
    · rw [run_succ_out]
      exact step_transform_question env (run env m c) hm

/-- The scenario environment for the audit trail: the relevance grader
rejects everything, so the pipeline reaches `transform_query`, whose
rewriter pads its output with whitespace (exercising the strip). -/
def envC9 : Env :=
  { envC3 with
    grade := fun _ _ => "no",
    rewrite := fun q => "  " ++ q ++ " magnetic resonance imaging  " }

/-- Witness for C9: after four supersteps (the fourth being the
`transform_query` transition at step 3), the trail length equals the
transition count, the initial (empty) trail is a prefix, and the
appended entry is exactly the stripped rewrite that became the next
question. -/
theorem query_rewrite_audit_trail_witness :
    ((run envC9 4 cfgC3).2.query_transformations).length
        = cfgC3.2.query_transformations.length + transform_steps envC9 cfgC3 4
    ∧ cfgC3.2.query_transformations <+: (run envC9 4 cfgC3).2.query_transformations
    ∧ ((run envC9 4 cfgC3).2.query_transformations
          = (run envC9 3 cfgC3).2.query_transformations
            ++ [(run envC9 4 cfgC3).2.question]
       ∧ (run envC9 4 cfgC3).2.question
          = pyStrip (envC9.rewrite (run envC9 3 cfgC3).2.question)) := by
  have h := query_rewrite_audit_trail envC9 cfgC3 4
  exact ⟨h.1, h.2.1, h.2.2 3 (by decide)⟩

/-! ### C3 -/

/-- C3: the regeneration loop is NOT bounded by the retry budget.  In
the concrete scenario environment — relevant documents found on the
first retrieval (so `retry_count` stays 0) and a groundedness grader
that answers "no" on every call — the pipeline never reaches the
terminal node: after step 5 it alternates between `generate` and
`hallucination_check` forever, because neither node increments
`retry_count`, so the guard `retry_count < max_retries` in
`check_hallucination` remains true at every visit.  This contradicts
the module's own documentation ("Retries are capped at
MAX_QUERY_RETRIES") and the spec's termination claim. -/
theorem regeneration_loop_unbounded :
    ∀ n : Nat, (run envC3 n cfgC3).1
      ∈ [Node.clarification_check, Node.retrieve, Node.grade_documents,
         Node.generate, Node.hallucination_check] := by
  have hcyc : run envC3 7 cfgC3 = run envC3 5 cfgC3 := by decide
  have hper : ∀ j : Nat, run envC3 (2 * j + 5) cfgC3 = run envC3 5 cfgC3 := by
    intro j
    induction j with
    | zero => rfl
    | succ j ih =>
        have he : 2 * (j + 1) + 5 = 2 * j + 7 := by omega
        rw [he]
        calc run envC3 (2 * j + 7) cfgC3
            = run envC3 (2 * j) (run envC3 7 cfgC3) := run_add envC3 (2 * j) 7 cfgC3
          _ = run envC3 (2 * j) (run envC3 5 cfgC3) := by rw [hcyc]
          _ = run envC3 (2 * j + 5) cfgC3 := (run_add envC3 (2 * j) 5 cfgC3).symm
          _ = run envC3 5 cfgC3 := ih
  intro n
  rcases Nat.lt_or_ge n 5 with h | h
  · interval_cases n <;> decide
  · rcases Nat.even_or_odd (n - 5) with ⟨j, hj⟩ | ⟨j, hj⟩
    · have he : n = 2 * j + 5 := by omega
      rw [he, hper j]
      decide
    · have he : n = (2 * j + 5) + 1 := by omega
      rw [he, run_succ_out, hper j]
      decide

/-! ### C4 -/

/-- The scenario environment whose ambiguity judgment reports the
question under-specified while returning an empty option list (nothing
in the code constrains the judgment to produce 2-4 options). -/
def envC4 : Env := { envC3 with clarify := fun _ _ _ => (true, []) }

/-- C4 counterexample: with an ambiguity judgment that reports the
question ambiguous but returns zero resolution options, the pipeline
still short-circuits to the terminal node, but the final state carries
0 clarification options — not the 2-4 the claim asserts. -/
theorem clarification_empty_options_cex :
    (envC4.clarify cfgC3.2.question cfgC3.2.departments cfgC3.2.role).1 = true
    ∧ (run envC4 1 cfgC3).1 = Node.done
    ∧ (run envC4 1 cfgC3).2.clarification_options.length = 0 :=
  ⟨rfl, by decide, by decide⟩

/-- C4 (amended): whenever the ambiguity judgment reports the question
ambiguous, the pipeline transitions directly from the clarification
check to the terminal node and stays there; the retrieval engine is
never invoked and no generation call is made (the outcome is identical
under any environment agreeing on the ambiguity judgment, and the
state's documents and generation are untouched — so the response
carries no retrieval results); the state carries exactly the option
list returned by the judgment, however many options that is. -/
theorem clarification_short_circuit (env : Env) (s : GraphState)
    (h : (env.clarify s.question s.departments s.role).1 = true)
    (n : Nat) (hn : 1 ≤ n) :
    run env n (Node.clarification_check, s) = (Node.done, clarification_check env s)
    ∧ (clarification_check env s).documents = s.documents
    ∧ (clarification_check env s).generation = s.generation
    ∧ (clarification_check env s).clarification_options
        = (env.clarify s.question s.departments s.role).2
    ∧ ∀ env2 : Env, env2.clarify = env.clarify →
        run env2 n (Node.clarification_check, s)
          = run env n (Node.clarification_check, s) := by
  have hclar : ∀ env2 : Env, env2.clarify = env.clarify →
      clarification_check env2 s = clarification_check env s := by
    intro env2 h2
    unfold clarification_check
    rw [h2]
  have hstep : ∀ env2 : Env, env2.clarify = env.clarify →
      step env2 (Node.clarification_check, s)
        = (Node.done, clarification_check env s) := by
    intro env2 h2
    show (route_after_clarification (clarification_check env2 s),
          clarification_check env2 s)
        = (Node.done, clarification_check env s)
    rw [hclar env2 h2]
    unfold route_after_clarification
    rw [if_pos (show (clarification_check env s).clarification_needed = true from by
      unfold clarification_check
      exact h)]
  have hrun : ∀ env2 : Env, env2.clarify = env.clarify →
      run env2 n (Node.clarification_check, s)
        = (Node.done, clarification_check env s) := by
    intro env2 h2
    obtain ⟨m, rfl⟩ : ∃ m, n = m + 1 := ⟨n - 1, by omega⟩
    rw [run_succ_in, hstep env2 h2, run_done]
  refine ⟨hrun env rfl, rfl, rfl, rfl, ?_⟩
  intro env2 h2
  rw [hrun env2 h2, hrun env rfl]

/-- An environment whose ambiguity judgment reports ambiguity with two
options. -/
def envC4w : Env :=
  { envC3 with
    clarify := fun _ _ _ =>
      (true, ["Which department policy do you mean?",
              "Which imaging procedure do you mean?"]) }

/-- Witness for C4's amended claim at a concrete ambiguous judgment:
three supersteps land (and stay) on the terminal node, documents and
generation are untouched, the state carries exactly the judgment's two
options, and swapping in the same-judgment environment changes
nothing. -/
theorem clarification_short_circuit_witness :
    run envC4w 3 (Node.clarification_check, cfgC3.2)
        = (Node.done, clarification_check envC4w cfgC3.2)
    ∧ (clarification_check envC4w cfgC3.2).documents = cfgC3.2.documents
    ∧ (clarification_check envC4w cfgC3.2).generation = cfgC3.2.generation
    ∧ (clarification_check envC4w cfgC3.2).clarification_options
        = (envC4w.clarify cfgC3.2.question cfgC3.2.departments cfgC3.2.role).2
    ∧ run envC4w 3 (Node.clarification_check, cfgC3.2)
        = run envC4w 3 (Node.clarification_check, cfgC3.2) := by
  have h := clarification_short_circuit envC4w cfgC3.2 rfl 3 (by omega)
  exact ⟨h.1, h.2.1, h.2.2.1, h.2.2.2.1, h.2.2.2.2 envC4w rfl⟩

end ClinIQ
